import Mathlib

/-!
Verification of the adventure-game socket server (src/server.py): a shallow
embedding of the session state, the command handlers, the router and the
darkness/grue hazard, followed by theorems about the spec claims.
-/

set_option linter.unusedVariables false

namespace Adventure

/-- Single-quote character, used to build Python string literals. -/
def sq : String := String.singleton (Char.ofNat 39)

/-- Values stored in a room dictionary: Python strings and booleans. -/
inductive PyVal where
  | str (s : String)
  | bool (b : Bool)
deriving DecidableEq

/-- Python truthiness of a room-dictionary value. -/
def pyTruthy : PyVal → Bool
  | .str s => s ≠ ""
  | .bool b => b

/-- Python str() rendering of a room-dictionary value. -/
def pyValStr : PyVal → String
  | .str s => s
  | .bool b => if b then "True" else "False"

/-- Exceptions the command handlers can raise. -/
inductive PyExn where
  | indexError
  | keyError (k : String)
deriving DecidableEq

/-- Rendering of an exception as interpolated into the bad-programmer message. -/
def pyExnStr : PyExn → String
  | .indexError => "list index out of range"
  | .keyError k => sq ++ k ++ sq

/-- One record of `self.rooms` (src/server.py lines 61-96): name, description,
four directional exits (Python `False` modelled as `none`), darkness flag. -/
structure Room where
  name : String
  desc : String
  north : Option String
  south : Option String
  east : Option String
  west : Option String
  dark : Bool
deriving DecidableEq

/-- Static room dictionary `self.rooms`, in insertion order. -/
def rooms : List (String × Room) :=
  [ ("0", { name := "Foyer", desc := "a grand foyer, all pink",
            north := some "3", south := none, east := some "2", west := some "1",
            dark := false }),
    ("1", { name := "Kitchen", desc := "a large kitchen, dirty and gray",
            north := none, south := none, east := some "0", west := none,
            dark := true }),
    ("2", { name := "Library", desc := "a musty library, with wooden floors",
            north := none, south := none, east := none, west := some "0",
            dark := false }),
    ("3", { name := "Fountain", desc := "a grand fountain, broken and dry",
            north := none, south := some "0", east := none, west := none,
            dark := false }),
    ("4", { name := "Cave", desc := "a dark cave with paintings on the walls",
            north := none, south := none, east := none, west := none,
            dark := true }) ]

/-- Dictionary lookup in `self.rooms`; `none` models a Python KeyError. -/
def roomsLookup (k : String) : Option Room :=
  (rooms.find? (fun p => p.1 == k)).map (fun p => p.2)

/-- Dynamic key lookup inside one room record, as in `self.rooms[self.room][direction]`:
any of the seven dictionary keys can be named, not only the four directions. -/
def roomGet (r : Room) (key : String) : Option PyVal :=
  match key with
  | "name" => some (.str r.name)
  | "desc" => some (.str r.desc)
  | "north" => some (match r.north with | some t => .str t | none => .bool false)
  | "south" => some (match r.south with | some t => .str t | none => .bool false)
  | "east" => some (match r.east with | some t => .str t | none => .bool false)
  | "west" => some (match r.west with | some t => .str t | none => .bool false)
  | "dark" => some (.bool r.dark)
  | _ => none

/-- Mutable per-session state of the `Server` object (src/server.py `__init__`).
Python lets `self.room` be assigned any dictionary value; every later use passes it
through `str`, so the state stores the `str` rendering directly. -/
structure GameState where
  input_buffer : String
  output_buffer : String
  done : Bool
  room : String
  lit_candle : Bool
  dark_count : Int
  objects : List (String × String)
deriving DecidableEq

/-- Initial session state built by `Server.__init__`. -/
def initState : GameState :=
  { input_buffer := "", output_buffer := "", done := false, room := "0",
    lit_candle := false, dark_count := 4,
    objects := [("candle", "2"), ("pebble", "3"), ("scroll", "4")] }

/-- Connection-time configuration: the optional chatbot responder (absent when the
chatterbot import or construction failed; a responder that raises is an `.error`),
plus the address and port that `debug` reports. -/
structure Config where
  chatbot : Option (String → Except Unit String)
  myaddr : String
  port : Nat

/-- Dictionary lookup in `self.objects`. -/
def dictLookup (l : List (String × String)) (k : String) : Option String :=
  (l.find? (fun p => p.1 == k)).map (fun p => p.2)

/-- Dictionary assignment `self.objects[k] = v`. -/
def dictSet (l : List (String × String)) (k v : String) : List (String × String) :=
  if l.any (fun p => p.1 == k) then
    l.map (fun p => if p.1 == k then (k, v) else p)
  else
    l ++ [(k, v)]

/-- Scan of an object dictionary for the names owned by `query`, in insertion
order. -/
def invList (l : List (String × String)) (query : String) : List String :=
  (l.filter (fun p => p.2 == query)).map (fun p => p.1)

/-- Method `get_inv` (src/server.py lines 396-405): all object names whose recorded
owner equals `query`, in dictionary insertion order. -/
def get_inv (s : GameState) (query : String) : List String :=
  invList s.objects query

/-- Method `room_description` (src/server.py lines 141-194). Raises KeyError when
`room_number` (or, at the exit listing, the current room) is not a room key. The
exit listing reads `self.rooms[self.room]` — the current room, not `room_number`. -/
def room_description (s : GameState) (room_number : String) : Except PyExn String :=
  match roomsLookup room_number with
  | none => .error (.keyError room_number)
  | some r =>
    let room_info := "\n\nYou are in the " ++ r.name ++ "."
    let room_info :=
      if r.dark then
        room_info ++ "  It is dark" ++
          (if s.lit_candle then " but the candle lights the way." else ".")
      else room_info
    let room_info := room_info ++ "  You see " ++ r.desc ++ "."
    let stuff := get_inv s room_number
    let room_info :=
      if stuff ≠ [] then
        room_info ++ "\n\nThe following items are present: " ++
          String.intercalate ", " stuff ++ "."
      else room_info
    match roomsLookup s.room with
    | none => .error (.keyError s.room)
    | some cur =>
      let paths := ["north", "south", "east", "west"].filter
        (fun i => match roomGet cur i with
                  | some v => pyTruthy v
                  | none => false)
      let room_info :=
        if paths ≠ [] then
          room_info ++ "\n\n" ++
            (if paths.length == 1 then "A path lies to the " else "Paths lie to the ") ++
            String.intercalate ", " paths ++ "."
        else room_info ++ "\n\nThere are no obvious exits."
      .ok (room_info ++ "\n")

/-- Message emitted when movement hits a blocked exit. -/
def wallMsg : String := "\n\nOuch!  You ran into a wall!\n"

/-- Message emitted when the movement lookup or the new-room description raises. -/
def tarPitMsg : String := "\n\nYou narrowly avoid stepping in a tar pit!\n"

/-- Method `move` (src/server.py lines 227-263). With no argument it is a silent
no-op. Its `try` covers the exit lookup and the description of the new room; the
room assignment precedes the description, so a failing description leaves the room
mutated while the handler reports the tar pit. -/
def move (s : GameState) (argument : List String) : GameState :=
  match argument with
  | [] => s
  | direction :: _ =>
    match roomsLookup s.room with
    | none => { s with output_buffer := tarPitMsg }
    | some cur =>
      match roomGet cur direction with
      | none => { s with output_buffer := tarPitMsg }
      | some v =>
        if pyTruthy v then
          let s1 := { s with room := pyValStr v }
          match room_description s1 s1.room with
          | .ok d => { s1 with output_buffer := d }
          | .error _ => { s1 with output_buffer := tarPitMsg }
        else
          { s with output_buffer := wallMsg }

/-- Method `teleport` (src/server.py lines 266-281). The room is assigned before
the description probe; on KeyError the handler terminates the session with the
assigned room left in place. The description computed on success is discarded. -/
def teleport (s : GameState) (argument : List String) : GameState :=
  match argument with
  | [] => { s with output_buffer := "\n\nTricks are for rabbits!\n" }
  | whither :: _ =>
    let s1 := { s with room := whither }
    match room_description s1 s1.room with
    | .ok _ =>
      { s1 with output_buffer := s1.output_buffer ++ "\n\nA cloud of smoke dissipates.\n" }
    | .error _ =>
      { s1 with done := true,
                output_buffer := "\n\nPoof!  You teleport into a rock!\n" ++ "Goodbye!\n" }

/-- Method `say` (src/server.py lines 284-301). The chatbot is queried with the
whole raw input line `self.input_buffer`; any failure (including an absent chatbot
attribute) falls back to the quoting template over the joined argument tokens. -/
def say (cfg : Config) (s : GameState) (argument : List String) : GameState :=
  let fallback :=
    { s with output_buffer :=
        "\n\nYou say, \"" ++ String.intercalate " " argument ++
          "\".  (wabba wabba, whee, wok!)\n" }
  match cfg.chatbot with
  | none => fallback
  | some respond =>
    match respond s.input_buffer with
    | .ok simon_sez => { s with output_buffer := "\n\n" ++ simon_sez ++ "\n" }
    | .error _ => fallback

/-- Method `quit` (src/server.py lines 308-321). -/
def quit (s : GameState) (argument : List String) : GameState :=
  { s with done := true, output_buffer := "\n\nIf you must!  (Goodbye!)\n" }

/-- Method `exit` (src/server.py lines 304-305) delegates to `quit`; note it has no
entry in the dispatch table. -/
def exit (s : GameState) (argument : List String) : GameState := quit s argument

/-- Method `go` (src/server.py lines 381-382) delegates to `move`. -/
def go (s : GameState) (argument : List String) : GameState := move s argument

/-- Method `north` (src/server.py lines 384-385): fixed direction, argument ignored. -/
def north (s : GameState) (argument : List String) : GameState := move s ["north"]

/-- Method `south` (src/server.py lines 387-388): fixed direction, argument ignored. -/
def south (s : GameState) (argument : List String) : GameState := move s ["south"]

/-- Method `east` (src/server.py lines 390-391): fixed direction, argument ignored. -/
def east (s : GameState) (argument : List String) : GameState := move s ["east"]

/-- Method `west` (src/server.py lines 393-394): fixed direction, argument ignored. -/
def west (s : GameState) (argument : List String) : GameState := move s ["west"]

/-- Method `inventory` (src/server.py lines 408-421). -/
def inventory (s : GameState) (argument : List String) : GameState :=
  let inv := get_inv s "player"
  if inv ≠ [] then
    let out := "\n\nYour magic bag contains: " ++ String.intercalate ", " inv ++ "\n"
    let out :=
      if "candle" ∈ inv then
        out ++ (if s.lit_candle then
                  "The candle throws a dim, flickering light on the walls.\n"
                else "The candle is unlit.\n")
      else out
    { s with output_buffer := out }
  else
    { s with output_buffer := "\n\nYour magic bag is empty.  :-(\n" }

/-- Method `light` (src/server.py lines 424-434). `argument[0]` raises on an empty
argument list; the inventory the source computes is never used, so possession of
the candle is not required. -/
def light (s : GameState) (argument : List String) : Except PyExn GameState :=
  match argument with
  | [] => .error .indexError
  | requested_object :: _ =>
    if requested_object = "candle" then
      .ok { s with lit_candle := true,
                   output_buffer := "\n\nThe candle flickers to life.\n" }
    else
      .ok { s with output_buffer :=
        "\n\nYou can" ++ sq ++ "t light a " ++ String.intercalate " " argument ++
          ", silly!\n" }

/-- Method `get` (src/server.py lines 437-447). -/
def get (s : GameState) (argument : List String) : Except PyExn GameState :=
  match argument with
  | [] => .error .indexError
  | requested_object :: _ =>
    let avail_objects := get_inv s s.room
    if requested_object ∈ avail_objects then
      .ok { s with objects := dictSet s.objects requested_object "player",
                   output_buffer :=
                     "\n\nYou put the " ++ requested_object ++ " in your magic bag.\n" }
    else
      .ok { s with output_buffer := "\n\nNice try, bozo!\n" }

/-- Method `drop` (src/server.py lines 450-463). Dropping the candle also puts it
out. -/
def drop (s : GameState) (argument : List String) : Except PyExn GameState :=
  match argument with
  | [] => .error .indexError
  | requested_object :: _ =>
    let avail_objects := get_inv s "player"
    if requested_object ∈ avail_objects then
      let s1 := { s with objects := dictSet s.objects requested_object s.room,
                         output_buffer :=
                           "\n\nYou drop the " ++ requested_object ++
                             " like a limp mackerel.\n" }
      if requested_object = "candle" then
        .ok { s1 with lit_candle := false,
                      output_buffer := s1.output_buffer ++ "The candle goes out.\n" }
      else .ok s1
    else
      .ok { s with output_buffer :=
        "\n\nYou fail to conjure a " ++ requested_object ++ " from thin air.\n" }

/-- Method `look` (src/server.py lines 466-470); a failing description escapes to
the router. -/
def look (s : GameState) (argument : List String) : Except PyExn GameState :=
  match room_description s s.room with
  | .ok d => .ok { s with output_buffer := d }
  | .error e => .error e

/-- Method `help` (src/server.py lines 473-483). -/
def help (s : GameState) (argument : List String) : GameState :=
  match argument with
  | [] => { s with output_buffer := "\n\nWhat" ++ sq ++ "s the magic word?!\n" }
  | a :: _ =>
    if a = "please" then
      { s with output_buffer :=
          "\n\nTry an action/subject pair, like " ++ sq ++ "move south" ++ sq ++
            ", or just an action, like " ++ sq ++ "look" ++ sq ++ ".\n" }
    else
      { s with output_buffer := "\n\nI can" ++ sq ++ "t hear you!\n" }

/-- Python repr of a string, with single quotes. -/
def pyReprStr (x : String) : String := sq ++ x ++ sq

/-- Python str of a boolean. -/
def pyReprBool (b : Bool) : String := if b then "True" else "False"

/-- Python repr of an exit entry: a quoted room key or False. -/
def pyReprExit : Option String → String
  | some t => pyReprStr t
  | none => "False"

/-- Python repr of the object dictionary. -/
def pyReprObjects (l : List (String × String)) : String :=
  "\x7b" ++
    String.intercalate ", " (l.map (fun p => pyReprStr p.1 ++ ": " ++ pyReprStr p.2)) ++
    "\x7d"

/-- Python repr of one room record. -/
def pyReprRoom (r : Room) : String :=
  "\x7b" ++ pyReprStr "name" ++ ": " ++ pyReprStr r.name ++ ", " ++
    pyReprStr "desc" ++ ": " ++ pyReprStr r.desc ++ ", " ++
    pyReprStr "north" ++ ": " ++ pyReprExit r.north ++ ", " ++
    pyReprStr "south" ++ ": " ++ pyReprExit r.south ++ ", " ++
    pyReprStr "east" ++ ": " ++ pyReprExit r.east ++ ", " ++
    pyReprStr "west" ++ ": " ++ pyReprExit r.west ++ ", " ++
    pyReprStr "dark" ++ ": " ++ pyReprBool r.dark ++ "\x7d"

/-- Python repr of the room dictionary. -/
def pyReprRooms : String :=
  "\x7b" ++
    String.intercalate ", " (rooms.map (fun p => pyReprStr p.1 ++ ": " ++ pyReprRoom p.2)) ++
    "\x7d"

/-- Method `debug` (src/server.py lines 486-499). -/
def debug (cfg : Config) (s : GameState) (argument : List String) : GameState :=
  { s with output_buffer :=
      "\n" ++
      "\nDEBUG addr: " ++ cfg.myaddr ++
      "\nDEBUG port: " ++ toString cfg.port ++
      "\nDEBUG room: " ++ s.room ++
      "\nDEBUG done: " ++ pyReprBool s.done ++
      "\nDEBUG lit_candle: " ++ pyReprBool s.lit_candle ++
      "\nDEBUG dark_count: " ++ toString s.dark_count ++
      "\nDEBUG objects: " ++ pyReprObjects s.objects ++
      "\nDEBUG rooms: " ++ pyReprRooms ++ "\n" }

/-- Handler signature: state and split argument tokens to either a new state or an
uncaught Python exception. -/
abbrev Handler := GameState → List String → Except PyExn GameState

/-- Lift of a handler that cannot raise. -/
def pureH (f : GameState → List String → GameState) : Handler :=
  fun s a => .ok (f s a)

/-- Verb dispatch table of `route` (src/server.py lines 341-359). The source dict
literal lists "quit" twice with the same handler; one entry is equivalent. -/
def verbTable (cfg : Config) (command : String) : Option Handler :=
  match command with
  | "quit" => some (pureH quit)
  | "move" => some (pureH move)
  | "teleport" => some (pureH teleport)
  | "say" => some (pureH (say cfg))
  | "look" => some look
  | "debug" => some (pureH (debug cfg))
  | "inventory" => some (pureH inventory)
  | "light" => some light
  | "get" => some get
  | "drop" => some drop
  | "help" => some (pureH help)
  | "go" => some (pureH go)
  | "north" => some (pureH north)
  | "south" => some (pureH south)
  | "west" => some (pureH west)
  | "east" => some (pureH east)
  | _ => none

/-- Grue hazard evaluation at the end of `route` (src/server.py lines 367-379),
reached only when the session is not over. An unknown current room raises an
uncaught KeyError here — nothing above this point catches it, so it crashes the
turn. -/
def grueCheck (s : GameState) : Except PyExn GameState :=
  if s.done then .ok s
  else
    match roomsLookup s.room with
    | none => .error (.keyError s.room)
    | some r =>
      if r.dark && !s.lit_candle then
        let s1 :=
          if s.dark_count ≤ 2 then
            { s with output_buffer :=
                s.output_buffer ++ "\nYou are likely to be eaten by a grue!\n" }
          else s
        let s2 :=
          if s1.dark_count ≤ 0 then
            { s1 with output_buffer := "\n\nYou have been eaten by a grue!!!\n" ++ "Goodbye!\n",
                      done := true }
          else s1
        .ok { s2 with dark_count := s2.dark_count - 1 }
      else
        .ok { s with dark_count := 4 }

/-- Dispatch-and-hazard body of `route` (src/server.py lines 341-379), after the
input line has been split. An unknown verb hits the TypeError arm (the table lookup
yields None, which is then called); a raising handler hits the generic arm. In both
arms the surviving state is the pre-handler state, because each raising handler
raises before its first mutation. -/
def routeTokens (cfg : Config) (s : GameState) (command : String)
    (arguments : List String) : Except PyExn GameState :=
  let s1 :=
    match verbTable cfg command with
    | none =>
      { s with output_buffer :=
          "\n\n" ++ s.input_buffer ++ "!????  Adjust your Babblefish!\n" }
    | some h =>
      match h s arguments with
      | .ok t => t
      | .error e =>
        { s with output_buffer :=
            "\n\nFrozzle, Frozzle, --" ++ pyExnStr e ++ "--, when " ++
              s.input_buffer ++ "!\n" }
  grueCheck s1

/-- Helper of `pySplit`, walking the character list with the current field reversed. -/
def splitSpaceAux : List Char → List Char → List String
  | [], acc => [String.mk acc.reverse]
  | c :: rest, acc =>
    if c = Char.ofNat 32 then String.mk acc.reverse :: splitSpaceAux rest []
    else splitSpaceAux rest (c :: acc)

/-- Python `str.split(" ")`: every single space separates, empty fields are kept,
and the empty string yields one empty field. -/
def pySplit (s : String) : List String := splitSpaceAux s.data []

/-- Method `route` (src/server.py lines 324-379): split the input buffer on spaces
into a command and the argument tokens, dispatch, then run the grue check. -/
def route (cfg : Config) (s : GameState) : Except PyExn GameState :=
  let toks := pySplit s.input_buffer
  routeTokens cfg s (toks.headD "") (toks.drop 1)

/-- One iteration of the serve loop (src/server.py lines 518-523): clear both
buffers, receive the line, route. An `.error` result is an uncaught exception that
crashes the loop. -/
def turn (cfg : Config) (s : GameState) (line : String) : Except PyExn GameState :=
  route cfg { s with input_buffer := line, output_buffer := "" }

/-- Several turns in sequence. -/
def turns (cfg : Config) (s : GameState) (lines : List String) : Except PyExn GameState :=
  lines.foldlM (turn cfg) s

/-- Method `push_output` (src/server.py lines 502-510): the flushed message is the
fixed acknowledgment prefix followed by the output buffer, verbatim. -/
def flushedMessage (s : GameState) : String := "OK!  " ++ s.output_buffer

/-- Method `greet` (src/server.py lines 197-209). -/
def greet (s : GameState) : Except PyExn GameState :=
  match room_description s s.room with
  | .ok d => .ok { s with output_buffer := "Welcome to Realms of Venture! " ++ d }
  | .error e => .error e

/-- Test configuration with no chatbot available. -/
def cfg0 : Config := { chatbot := none, myaddr := "203.0.113.7", port := 50000 }

/-- Test configuration whose responder echoes back the query it received. -/
def cfgEcho : Config :=
  { chatbot := some (fun q => .ok q), myaddr := "203.0.113.7", port := 50000 }

/-- Check that a string ends with the newline character. -/
def endsWithNewline (t : String) : Bool :=
  t.data.getLast? == some (Char.ofNat 10)

/-- Name, darkness annotation and base-description segment of a room rendering,
worded as the spec does. -/
def descHeader (s : GameState) (r : Room) : String :=
  "\n\nYou are in the " ++ r.name ++ "." ++
    (if r.dark then
      "  It is dark" ++ (if s.lit_candle then " but the candle lights the way." else ".")
     else "") ++
    "  You see " ++ r.desc ++ "."

/-- Objects segment of a room rendering: comma-joined objects located in the
described room, omitted when empty. -/
def descObjects (s : GameState) (room_number : String) : String :=
  let stuff := get_inv s room_number
  if stuff ≠ [] then
    "\n\nThe following items are present: " ++ String.intercalate ", " stuff ++ "."
  else ""

/-- Exits segment of a room rendering for one room record: singular path, plural
paths, or the no-exit sentence. -/
def descExits (cur : Room) : String :=
  let paths := ["north", "south", "east", "west"].filter
    (fun i => match roomGet cur i with
              | some v => pyTruthy v
              | none => false)
  if paths ≠ [] then
    "\n\n" ++ (if paths.length == 1 then "A path lies to the " else "Paths lie to the ") ++
      String.intercalate ", " paths ++ "."
  else "\n\nThere are no obvious exits."

/-! Helper lemmas about the grue hazard evaluation, shared by several theorems. -/

/-- Lemma: in a safe room (not dark, or candle lit) the hazard resets the countdown. -/
theorem grueCheck_safe (s : GameState) (r : Room) (hdone : s.done = false)
    (hlook : roomsLookup s.room = some r) (hsafe : r.dark = false ∨ s.lit_candle = true) :
    grueCheck s = .ok { s with dark_count := 4 } := by
  unfold grueCheck
  rw [hdone, hlook]
  rcases hsafe with h | h <;> simp [h]

/-- Lemma: endangered with the countdown above 2, the hazard only decrements. -/
theorem grueCheck_tick (s : GameState) (r : Room) (hdone : s.done = false)
    (hlook : roomsLookup s.room = some r) (hdark : r.dark = true)
    (hlit : s.lit_candle = false) (hcount : 2 < s.dark_count) :
    grueCheck s = .ok { s with dark_count := s.dark_count - 1 } := by
  unfold grueCheck
  rw [hdone, hlook]
  simp [hdone, hdark, hlit, if_neg (by omega : ¬ s.dark_count ≤ 2),
    if_neg (by omega : ¬ s.dark_count ≤ 0)]

/-- Lemma: endangered with the countdown in (0, 2], the hazard appends the warning
and decrements. -/
theorem grueCheck_warn (s : GameState) (r : Room) (hdone : s.done = false)
    (hlook : roomsLookup s.room = some r) (hdark : r.dark = true)
    (hlit : s.lit_candle = false) (h0 : 0 < s.dark_count) (h2 : s.dark_count ≤ 2) :
    grueCheck s = .ok { s with
      output_buffer := s.output_buffer ++ "\nYou are likely to be eaten by a grue!\n",
      dark_count := s.dark_count - 1 } := by
  unfold grueCheck
  rw [hdone, hlook]
  simp [hdone, hdark, hlit, if_pos h2, if_neg (by omega : ¬ s.dark_count ≤ 0)]

/-- Lemma: endangered with the countdown at or below 0, the hazard overwrites the
output with the death message, appends Goodbye, terminates and still decrements. -/
theorem grueCheck_death (s : GameState) (r : Room) (hdone : s.done = false)
    (hlook : roomsLookup s.room = some r) (hdark : r.dark = true)
    (hlit : s.lit_candle = false) (h0 : s.dark_count ≤ 0) :
    grueCheck s = .ok { s with
      output_buffer := "\n\nYou have been eaten by a grue!!!\n" ++ "Goodbye!\n",
      done := true, dark_count := s.dark_count - 1 } := by
  unfold grueCheck
  rw [hdone, hlook]
  simp [hdone, hdark, hlit, if_pos (by omega : s.dark_count ≤ 2), if_pos h0]

/-- C1: the claim that no input can crash the turn loop fails on the code. The input
"move name" sent from the initial state makes `move` follow the "name" entry of the
room dictionary, setting the current room to the room name "Foyer"; the KeyError
inside the room description is swallowed by the handler, but the grue check then
looks up the nonexistent room "Foyer" outside every exception handler and the turn
ends in an uncaught KeyError instead of a response. -/
theorem C1_crash_eval :
    turn cfg0 initState "move name" = .error (.keyError "Foyer") := rfl

/-- C2 counterexample: starting with the countdown at its constant 4 and the player
endangered (unlit dark Kitchen) at the hazard evaluation of every one of 4
consecutive turns, the session has NOT ended on the 4th such turn — the termination
flag is still false and the countdown has only reached 0. -/
theorem C2_counterexample :
    (turns cfg0 initState ["move west", "look", "look", "look"]).toOption.map
      (fun t => (t.done, t.dark_count, t.room, t.lit_candle)) =
    some (false, 0, "1", false) := by decide

/-- C2 amended: with the countdown starting at its constant 4, an endangered hazard
evaluation (dark room, candle unlit) on 5 consecutive turns ends the session on the
5th such turn, when the countdown has already reached 0: the output buffer is
overwritten with the terminal eaten-by-a-grue message followed by Goodbye and the
termination flag is set once the countdown is at or below 0; a warning is appended
once the countdown is at 2 or below; the countdown is decremented by one on every
endangered turn; and a turn ending in a safe state (room not dark, or candle lit)
resets the countdown to 4. -/
theorem C2_amended_theorem :
    ((turns cfg0 initState ["move west", "look", "look", "look", "look"]).toOption.map
        (fun t => (t.done, t.output_buffer)) =
      some (true, "\n\nYou have been eaten by a grue!!!\nGoodbye!\n"))
    ∧ (∀ (s : GameState) (r : Room), s.done = false → roomsLookup s.room = some r →
        r.dark = false ∨ s.lit_candle = true →
        grueCheck s = .ok { s with dark_count := 4 })
    ∧ (∀ (s : GameState) (r : Room), s.done = false → roomsLookup s.room = some r →
        r.dark = true → s.lit_candle = false → 2 < s.dark_count →
        grueCheck s = .ok { s with dark_count := s.dark_count - 1 })
    ∧ (∀ (s : GameState) (r : Room), s.done = false → roomsLookup s.room = some r →
        r.dark = true → s.lit_candle = false → 0 < s.dark_count → s.dark_count ≤ 2 →
        grueCheck s = .ok { s with
          output_buffer := s.output_buffer ++ "\nYou are likely to be eaten by a grue!\n",
          dark_count := s.dark_count - 1 })
    ∧ (∀ (s : GameState) (r : Room), s.done = false → roomsLookup s.room = some r →
        r.dark = true → s.lit_candle = false → s.dark_count ≤ 0 →
        grueCheck s = .ok { s with
          output_buffer := "\n\nYou have been eaten by a grue!!!\n" ++ "Goodbye!\n",
          done := true, dark_count := s.dark_count - 1 }) :=
  ⟨by decide, grueCheck_safe, grueCheck_tick, grueCheck_warn, grueCheck_death⟩

/-- C2 witness: the four general clauses of the amended hazard theorem applied at
concrete states in the Foyer and the Kitchen. -/
theorem C2_witness :
    grueCheck initState = .ok { initState with dark_count := 4 } ∧
    grueCheck { initState with room := "1" } =
      .ok { initState with room := "1", dark_count := 4 - 1 } ∧
    grueCheck { initState with room := "1", dark_count := 2 } =
      .ok { initState with
            room := "1", dark_count := 2 - 1,
            output_buffer :=
              initState.output_buffer ++ "\nYou are likely to be eaten by a grue!\n" } ∧
    grueCheck { initState with room := "1", dark_count := 0 } =
      .ok { initState with
            room := "1", dark_count := 0 - 1,
            output_buffer := "\n\nYou have been eaten by a grue!!!\n" ++ "Goodbye!\n",
            done := true } :=
  ⟨C2_amended_theorem.2.1 initState _ rfl rfl (Or.inl rfl),
   C2_amended_theorem.2.2.1 { initState with room := "1" } _ rfl rfl rfl rfl (by decide),
   C2_amended_theorem.2.2.2.1 { initState with room := "1", dark_count := 2 } _
     rfl rfl rfl rfl (by decide) (by decide),
   C2_amended_theorem.2.2.2.2 { initState with room := "1", dark_count := 0 } _
     rfl rfl rfl rfl (by decide)⟩

/-- C3 counterexample: teleporting to the unknown identity "99" from the initial
state terminates the session with the apology message and Goodbye, but the current
room is left set to "99", which is not a room of the graph — current-room state IS
corrupted. -/
theorem C3_counterexample :
    (teleport initState ["99"]).done = true ∧
    (teleport initState ["99"]).output_buffer =
      "\n\nPoof!  You teleport into a rock!\nGoodbye!\n" ∧
    (teleport initState ["99"]).room = "99" ∧
    roomsLookup (teleport initState ["99"]).room = none := by decide

/-- C3 amended: for every teleport argument token that is not an existing room
identity in the graph, teleport ends the session — it sets the termination flag and
writes the apology message followed by Goodbye — but it sets the current room to the
nonexistent identity; the corrupted room is only shielded by the session ending. -/
theorem C3_amended_theorem (s : GameState) (w : String) (rest : List String)
    (hw : roomsLookup w = none) :
    teleport s (w :: rest) =
      { s with room := w, done := true,
               output_buffer := "\n\nPoof!  You teleport into a rock!\n" ++ "Goodbye!\n" } := by
  simp [teleport, room_description, hw]

/-- C3 witness: the amended teleport theorem at the concrete token "nowhere". -/
theorem C3_witness :
    teleport initState ["nowhere"] =
      { initState with
        room := "nowhere", done := true,
        output_buffer := "\n\nPoof!  You teleport into a rock!\n" ++ "Goodbye!\n" } :=
  C3_amended_theorem initState "nowhere" [] rfl

/-- C4 counterexample: "dark" is not one of the four recognized directions, yet
moving "dark" from the Foyer emits the ran-into-a-wall message rather than the
distinct tar-pit message, because "dark" is a key of the room dictionary whose value
False reads as a blocked exit. -/
theorem C4_counterexample :
    move initState ["dark"] = { initState with output_buffer := wallMsg } ∧
    "dark" ∉ ["north", "south", "east", "west"] ∧
    wallMsg ≠ tarPitMsg := by
  refine ⟨rfl, by decide, by decide⟩

/-- C4 amended: from any current room of the graph, moving along a recognized
direction whose exit is marked as no exit emits the ran-into-a-wall message and
leaves the current room unchanged; moving along a token that is not any key of the
room dictionary (so not one of name, desc, north, south, east, west, dark) emits the
distinct tar-pit message and leaves the current room unchanged. -/
theorem C4_amended_theorem (s : GameState) (cur : Room) (dir : String)
    (rest : List String) (hlook : roomsLookup s.room = some cur) :
    ((dir = "north" ∧ cur.north = none) ∨ (dir = "south" ∧ cur.south = none) ∨
      (dir = "east" ∧ cur.east = none) ∨ (dir = "west" ∧ cur.west = none) →
      move s (dir :: rest) = { s with output_buffer := wallMsg })
    ∧ (roomGet cur dir = none →
      move s (dir :: rest) = { s with output_buffer := tarPitMsg }) := by
  constructor
  · rintro (⟨hd, he⟩ | ⟨hd, he⟩ | ⟨hd, he⟩ | ⟨hd, he⟩) <;>
      subst hd <;> simp [move, hlook, roomGet, he, pyTruthy]
  · intro hkey
    simp [move, hlook, hkey]

/-- C4 witness: the amended movement theorem at the blocked south exit of the Foyer
and at the unrecognized token "up". -/
theorem C4_witness :
    move initState ["south"] = { initState with output_buffer := wallMsg } ∧
    move initState ["up"] = { initState with output_buffer := tarPitMsg } :=
  ⟨(C4_amended_theorem initState _ "south" [] rfl).1 (Or.inr (Or.inl ⟨rfl, rfl⟩)),
   (C4_amended_theorem initState _ "up" [] rfl).2 rfl⟩

/-- C5 counterexample: describing the exit-less Cave ("4") while the player stands
in the Foyer renders the Foyer exit list ("Paths lie to the north, east, west.")
instead of the no-obvious-exits sentence the claim requires for a room with no
exits: the exit segment follows the current room, not the described room. -/
theorem C5_counterexample :
    room_description initState "4" =
      .ok "\n\nYou are in the Cave.  It is dark.  You see a dark cave with paintings on the walls.\n\nThe following items are present: scroll.\n\nPaths lie to the north, east, west.\n" ∧
    room_description initState "4" ≠
      .ok "\n\nYou are in the Cave.  It is dark.  You see a dark cave with paintings on the walls.\n\nThe following items are present: scroll.\n\nThere are no obvious exits.\n" := by
  have h1 : room_description initState "4" =
      .ok "\n\nYou are in the Cave.  It is dark.  You see a dark cave with paintings on the walls.\n\nThe following items are present: scroll.\n\nPaths lie to the north, east, west.\n" := rfl
  refine ⟨h1, fun h => ?_⟩
  rw [h1] at h
  exact absurd (Except.ok.inj h) (by decide)

/-- C5 amended: for every room identity R in the graph, and with the player's
current room also in the graph, describe(R) renders R's name, R's darkness
annotation, R's base description, the comma-joined objects located in R (omitted
when empty), and then the exit directions available from the CURRENT room — not
from R — phrased as a single path, plural paths, or no obvious exits. -/
theorem C5_amended_theorem (s : GameState) (rid : String) (r cur : Room)
    (hr : roomsLookup rid = some r) (hcur : roomsLookup s.room = some cur) :
    room_description s rid =
      .ok (descHeader s r ++ descObjects s rid ++ descExits cur ++ "\n") := by
  unfold room_description descHeader descObjects descExits
  rw [hr, hcur]
  by_cases hd : r.dark <;> by_cases hl : s.lit_candle <;>
    by_cases hst : get_inv s rid = [] <;>
    by_cases hp : (["north", "south", "east", "west"].filter
      (fun i => match roomGet cur i with
                | some v => pyTruthy v
                | none => false)) = [] <;>
    simp [hd, hl, hst, hp, String.append_assoc, String.append_empty,
      String.empty_append] <;>
    (apply String.ext; simp [String.data_append])

/-- C5 witness: the amended description theorem applied to the Cave as seen from the
Foyer. -/
theorem C5_witness :
    room_description initState "4" =
      .ok (descHeader initState
            { name := "Cave", desc := "a dark cave with paintings on the walls",
              north := none, south := none, east := none, west := none, dark := true } ++
          descObjects initState "4" ++
          descExits
            { name := "Foyer", desc := "a grand foyer, all pink",
              north := some "3", south := none, east := some "2", west := some "1",
              dark := false } ++ "\n") :=
  C5_amended_theorem initState "4" _ _ rfl rfl

/-- C6 counterexample: after moving into the dark Kitchen the countdown stands at 3;
the unknown command "xyzzy" produces the Babblefish response but the hazard
evaluation at the end of the same turn still decrements the countdown to 2 — the
countdown does NOT stay unchanged. -/
theorem C6_counterexample :
    (turns cfg0 initState ["move west"]).toOption.map GameState.dark_count = some 3 ∧
    (turns cfg0 initState ["move west", "xyzzy"]).toOption.map GameState.dark_count =
      some 2 ∧
    (verbTable cfg0 "xyzzy").isNone = true :=
  ⟨by decide, by decide, rfl⟩

/-- C6 amended: for every input line whose first token is not in the verb table,
the turn writes the Babblefish response referencing the literal input and the
dispatch takes no state action — the routed state differs from the incoming one
only in the output buffer before the hazard evaluation runs; the countdown and the
termination flag can then change only through that standard hazard evaluation, and
in particular in a safe graph room the session stays active and the countdown is
reset to 4. -/
theorem C6_amended_theorem (cfg : Config) (s : GameState)
    (hv : (verbTable cfg ((pySplit s.input_buffer).headD "")).isNone = true) :
    (route cfg s =
      grueCheck { s with output_buffer :=
        "\n\n" ++ s.input_buffer ++ "!????  Adjust your Babblefish!\n" })
    ∧ (∀ r : Room, s.done = false → roomsLookup s.room = some r →
        r.dark = false ∨ s.lit_candle = true →
        route cfg s = .ok { s with
          output_buffer := "\n\n" ++ s.input_buffer ++ "!????  Adjust your Babblefish!\n",
          dark_count := 4 }) := by
  have hnone : verbTable cfg ((pySplit s.input_buffer).headD "") = none :=
    Option.isNone_iff_eq_none.mp hv
  have hb : route cfg s =
      grueCheck { s with output_buffer :=
        "\n\n" ++ s.input_buffer ++ "!????  Adjust your Babblefish!\n" } := by
    simp only [route, routeTokens, hnone]
  refine ⟨hb, fun r hdone hlook hsafe => ?_⟩
  rw [hb]
  exact grueCheck_safe _ r hdone hlook hsafe

/-- C6 witness: the amended unknown-command theorem at the input "xyzzy" from the
initial state. -/
theorem C6_witness :
    (route cfg0 { initState with input_buffer := "xyzzy" } =
      grueCheck { initState with
        input_buffer := "xyzzy",
        output_buffer := "\n\n" ++ "xyzzy" ++ "!????  Adjust your Babblefish!\n" })
    ∧ route cfg0 { initState with input_buffer := "xyzzy" } =
        .ok { initState with
          input_buffer := "xyzzy",
          output_buffer := "\n\n" ++ "xyzzy" ++ "!????  Adjust your Babblefish!\n",
          dark_count := 4 } :=
  ⟨(C6_amended_theorem cfg0 { initState with input_buffer := "xyzzy" } rfl).1,
   (C6_amended_theorem cfg0 { initState with input_buffer := "xyzzy" } rfl).2
     _ rfl rfl (Or.inl rfl)⟩

/-- C7: the flushed message is indeed the fixed acknowledgment token followed by the
response text, but the response text DOES end with a line terminator, contradicting
the source docstring (src/server.py lines 17-19) and the claim: the "look" turn from
the initial state leaves an output buffer whose final character is the newline. -/
theorem C7_eval :
    (turn cfg0 initState "look").toOption.map
      (fun t => (flushedMessage t == "OK!  " ++ t.output_buffer,
                 endsWithNewline t.output_buffer)) = some (true, true) := by decide

/-! Helper lemmas about the object dictionary, used for the inventory round trip. -/

/-- Lemma: one unfolding step of the dictionary lookup. -/
theorem dictLookup_cons (a : String × String) (t : List (String × String))
    (x : String) :
    dictLookup (a :: t) x = if a.1 = x then some a.2 else dictLookup t x := by
  by_cases h : a.1 = x <;> simp [dictLookup, List.find?_cons, h]

/-- Lemma: one unfolding step of the inventory scan. -/
theorem invList_cons (a : String × String) (t : List (String × String))
    (q : String) :
    invList (a :: t) q =
      if a.2 = q then a.1 :: invList t q else invList t q := by
  by_cases h : a.2 = q <;> simp [invList, List.filter_cons, h]

/-- Lemma: a key whose first entry carries value v is listed by the inventory scan
for v. -/
theorem mem_invList_of_lookup (l : List (String × String)) (x v : String)
    (h : dictLookup l x = some v) : x ∈ invList l v := by
  induction l with
  | nil => simp [dictLookup] at h
  | cons a t ih =>
    rw [dictLookup_cons] at h
    rw [invList_cons]
    by_cases hx : a.1 = x
    · rw [if_pos hx] at h
      have hv : a.2 = v := Option.some.inj h
      rw [if_pos hv, ← hx]
      exact List.mem_cons_self _ _
    · rw [if_neg hx] at h
      by_cases ha : a.2 = v
      · rw [if_pos ha]
        exact List.mem_cons_of_mem _ (ih h)
      · rw [if_neg ha]
        exact ih h

/-- Lemma: a successful lookup means the key occurs in the dictionary. -/
theorem any_key_of_lookup (l : List (String × String)) (x v : String)
    (h : dictLookup l x = some v) :
    l.any (fun p => p.1 == x) = true := by
  induction l with
  | nil => simp [dictLookup] at h
  | cons a t ih =>
    rw [dictLookup_cons] at h
    rw [List.any_cons]
    by_cases hx : a.1 = x
    · simp [hx]
    · rw [if_neg hx] at h
      simp [ih h]

/-- Lemma: rewriting every entry of key k to value v leaves the key population
unchanged. -/
theorem any_key_mapSet (l : List (String × String)) (k v x : String) :
    ((l.map (fun p => if p.1 == k then (k, v) else p)).any (fun p => p.1 == x)) =
      (l.any (fun p => p.1 == x)) := by
  induction l with
  | nil => rfl
  | cons a t ih =>
    rw [List.map_cons, List.any_cons, List.any_cons, ih]
    by_cases hk : a.1 = k
    · simp [hk]
    · simp [hk]

/-- Lemma: after rewriting every entry of key k to value v, looking k up yields v,
provided the key occurs at all. -/
theorem dictLookup_mapSet (l : List (String × String)) (k v : String)
    (h : l.any (fun p => p.1 == k) = true) :
    dictLookup (l.map (fun p => if p.1 == k then (k, v) else p)) k = some v := by
  induction l with
  | nil => simp at h
  | cons a t ih =>
    rw [List.map_cons, dictLookup_cons]
    by_cases hk : a.1 = k
    · simp [hk]
    · have h' : t.any (fun p => p.1 == k) = true := by
        simpa [hk] using h
      simpa [hk] using ih h'

/-- Lemma: assigning an existing key rewrites the dictionary entrywise. -/
theorem dictSet_eq_mapSet (l : List (String × String)) (k v : String)
    (h : l.any (fun p => p.1 == k) = true) :
    dictSet l k v = l.map (fun p => if p.1 == k then (k, v) else p) := by
  unfold dictSet
  rw [if_pos h]

/-- Lemma: lookup after a dictionary assignment of an existing key. -/
theorem dictLookup_dictSet_self (l : List (String × String)) (k v : String)
    (h : l.any (fun p => p.1 == k) = true) :
    dictLookup (dictSet l k v) k = some v := by
  rw [dictSet_eq_mapSet l k v h]
  exact dictLookup_mapSet l k v h

/-- Lemma: after every entry of key x is rewritten to value v, and v differs from q,
the inventory scan for q does not list x. -/
theorem not_mem_invList_mapSet (l : List (String × String)) (x v q : String)
    (hvq : v ≠ q) :
    x ∉ invList (l.map (fun p => if p.1 == x then (x, v) else p)) q := by
  induction l with
  | nil => simp [invList]
  | cons a t ih =>
    rw [List.map_cons, invList_cons]
    by_cases hx : a.1 = x
    · simp only [hx, beq_self_eq_true, if_true]
      rw [if_neg hvq]
      exact ih
    · have hbx : (a.1 == x) = false := by
        simpa using hx
      simp only [hbx, Bool.false_eq_true, if_false]
      by_cases ha : a.2 = q
      · rw [if_pos ha]
        intro hmem
        rcases List.mem_cons.mp hmem with h1 | h2
        · exact hx (h1 ▸ rfl)
        · exact ih h2
      · rw [if_neg ha]
        exact ih

/-- C8: for every object located exactly in the player's current graph room,
getting it and then dropping it with no intervening command returns it to that same
room and removes it from the carried set. -/
theorem C8_roundtrip (s : GameState) (x : String) (r : Room)
    (hroom : roomsLookup s.room = some r)
    (hloc : dictLookup s.objects x = some s.room) :
    ∃ s1 s2, get s [x] = .ok s1 ∧ drop s1 [x] = .ok s2 ∧
      dictLookup s2.objects x = some s.room ∧
      x ∉ get_inv s2 "player" ∧ s2.room = s.room := by
  have hnp : s.room ≠ "player" := by
    intro hW
    rw [hW] at hroom
    simp [roomsLookup, rooms, List.find?] at hroom
  have hany : s.objects.any (fun p => p.1 == x) = true :=
    any_key_of_lookup s.objects x s.room hloc
  have hmem : x ∈ invList s.objects s.room :=
    mem_invList_of_lookup s.objects x s.room hloc
  have hget : get s [x] = .ok { s with
      objects := dictSet s.objects x "player",
      output_buffer := "\n\nYou put the " ++ x ++ " in your magic bag.\n" } := by
    simp [get, get_inv, hmem]
  have hany1 : (dictSet s.objects x "player").any (fun p => p.1 == x) = true := by
    rw [dictSet_eq_mapSet _ _ _ hany, any_key_mapSet]
    exact hany
  have hlook1 : dictLookup (dictSet s.objects x "player") x = some "player" :=
    dictLookup_dictSet_self s.objects x "player" hany
  have hmem1 : x ∈ invList (dictSet s.objects x "player") "player" :=
    mem_invList_of_lookup _ x "player" hlook1
  have hlook2 :
      dictLookup (dictSet (dictSet s.objects x "player") x s.room) x = some s.room :=
    dictLookup_dictSet_self _ x s.room hany1
  have hnotmem2 :
      x ∉ invList (dictSet (dictSet s.objects x "player") x s.room) "player" := by
    rw [dictSet_eq_mapSet _ _ _ hany1]
    exact not_mem_invList_mapSet _ x s.room "player" hnp
  by_cases hc : x = "candle"
  · subst hc
    refine ⟨_, { s with
        objects := dictSet (dictSet s.objects "candle" "player") "candle" s.room,
        lit_candle := false,
        output_buffer := "\n\nYou drop the " ++ "candle" ++ " like a limp mackerel.\n"
          ++ "The candle goes out.\n" },
      hget, ?_, hlook2, hnotmem2, rfl⟩
    simp [drop, get_inv, hmem1]
  · refine ⟨_, { s with
        objects := dictSet (dictSet s.objects x "player") x s.room,
        output_buffer := "\n\nYou drop the " ++ x ++ " like a limp mackerel.\n" },
      hget, ?_, hlook2, hnotmem2, rfl⟩
    simp [drop, get_inv, hmem1, hc]

/-- C8 witness: the round trip for the candle picked up from the Library. -/
theorem C8_witness :
    ∃ s1 s2, get { initState with room := "2" } ["candle"] = .ok s1 ∧
      drop s1 ["candle"] = .ok s2 ∧
      dictLookup s2.objects "candle" = some "2" ∧
      "candle" ∉ get_inv s2 "player" ∧ s2.room = "2" :=
  C8_roundtrip { initState with room := "2" } "candle" _ rfl rfl

/-- C9 counterexample: with a responder that echoes its query, saying "hello there"
puts an echo of the whole raw line "say hello there" into the output buffer: the
string forwarded to the responder is the raw input buffer, not the joined argument
tokens "hello there". -/
theorem C9_counterexample :
    (say cfgEcho { initState with input_buffer := "say hello there" }
        ["hello", "there"]).output_buffer = "\n\nsay hello there\n" ∧
    "\n\nsay hello there\n" ≠
      "\n\n" ++ String.intercalate " " ["hello", "there"] ++ "\n" ∧
    ({ initState with input_buffer := "say hello there" } : GameState).input_buffer ≠
      String.intercalate " " ["hello", "there"] := by
  refine ⟨rfl, by decide, by decide⟩

/-- C9 amended: the string forwarded to the external responder is the raw input
line held in the input buffer (verb included); when the responder is unavailable or
fails, the failure does not propagate and the output buffer is set to the fixed
quoting template applied to the joined argument tokens. -/
theorem C9_amended_theorem (cfg : Config) (s : GameState) (argument : List String) :
    (cfg.chatbot = none →
      say cfg s argument = { s with output_buffer :=
        "\n\nYou say, \"" ++ String.intercalate " " argument ++
          "\".  (wabba wabba, whee, wok!)\n" })
    ∧ (∀ f, cfg.chatbot = some f → f s.input_buffer = .error () →
      say cfg s argument = { s with output_buffer :=
        "\n\nYou say, \"" ++ String.intercalate " " argument ++
          "\".  (wabba wabba, whee, wok!)\n" })
    ∧ (∀ f resp, cfg.chatbot = some f → f s.input_buffer = .ok resp →
      say cfg s argument = { s with output_buffer := "\n\n" ++ resp ++ "\n" }) := by
  refine ⟨fun h => ?_, fun f hf hfail => ?_, fun f resp hf hok => ?_⟩
  · simp [say, h]
  · simp [say, hf, hfail]
  · simp [say, hf, hok]

/-- C9 witness: the amended say theorem with the chatbot absent and with the echo
responder. -/
theorem C9_witness :
    say cfg0 { initState with input_buffer := "say hi" } ["hi"] =
      { initState with
        input_buffer := "say hi",
        output_buffer :=
          "\n\nYou say, \"" ++ String.intercalate " " ["hi"] ++
            "\".  (wabba wabba, whee, wok!)\n" } ∧
    say cfgEcho { initState with input_buffer := "say hi" } ["hi"] =
      { initState with
        input_buffer := "say hi",
        output_buffer := "\n\n" ++ "say hi" ++ "\n" } :=
  ⟨(C9_amended_theorem cfg0 { initState with input_buffer := "say hi" } ["hi"]).1 rfl,
   (C9_amended_theorem cfgEcho { initState with input_buffer := "say hi" } ["hi"]).2.2
     _ "say hi" rfl rfl⟩

/-- C10: routing the undocumented verb "go" with any argument tokens produces
exactly the same resulting state and output as routing the verb "move" with the
same tokens, for every incoming state and configuration. -/
theorem C10_go_move (cfg : Config) (s : GameState) (arguments : List String) :
    routeTokens cfg s "go" arguments = routeTokens cfg s "move" arguments := rfl

end Adventure
